import Mathlib

/-
Verification of the Arcam AVR protocol client
(`homeassistant/components/arcam_avr/arcam/`: `protocol.py`, `commands.py`,
`connection.py`) against its natural-language specification.

Bytes are modelled as `List ℕ` (each element a value 0–255 where the source
produces one); Python `int` fields that may be negative are modelled as `ℤ`;
fallible Python code (raising `ArcamProtocolError` / `ValueError`) is modelled
as `Except String _` with abbreviated error strings.  The asynchronous parts of
`connection.py` are modelled by explicit event traces: each socket read is an
oracle event, and the loops become pure recursive functions over those events.
-/

/-! ## Protocol constants (`protocol.py`) -/

def START_BYTE : ℕ := 0x21

def END_BYTE : ℕ := 0x0D

def ANSWER_OK : ℕ := 0x00

def ANSWER_ZONE_INVALID : ℕ := 0x82

def ANSWER_COMMAND_NOT_RECOGNIZED : ℕ := 0x83

def ANSWER_PARAMETER_NOT_RECOGNIZED : ℕ := 0x84

def ANSWER_COMMAND_INVALID_AT_THIS_TIME : ℕ := 0x85

def ANSWER_INVALID_DATA_LENGTH : ℕ := 0x86

/-! ## Data model (`protocol.py`: `ArcamCommand`, `ArcamResponse`) -/

/-- `ArcamCommand` dataclass: `zone` and `command_code` are Python ints
(hence `ℤ`), `data` is a byte string. -/
structure ArcamCommand where
  zone : ℤ
  command_code : ℤ
  data : List ℕ
deriving DecidableEq, Repr

/-- Whether a modelled Python call raised (the `Except.error` case). -/
def raised {α : Type} (r : Except String α) : Bool :=
  match r with
  | .error _ => true
  | .ok _ => false

/-- `ArcamCommand.__post_init__`: dataclass construction runs the validation,
so constructing a command is modelled as this fallible smart constructor.
The three checks appear in the source's order; a passing construction stores
the fields exactly as given. -/
def mkArcamCommand (zone command_code : ℤ) (data : List ℕ) :
    Except String ArcamCommand :=
  if ¬ (1 ≤ zone ∧ zone ≤ 2) then .error "Invalid zone"
  else if ¬ (0 ≤ command_code ∧ command_code ≤ 255) then .error "Invalid command code"
  else if ¬ (data.length ≤ 255) then .error "Data too long"
  else .ok ⟨zone, command_code, data⟩

/-- The invariant `__post_init__` establishes (used as the hypothesis
"validly constructed Command"). -/
def ArcamCommand.Valid (c : ArcamCommand) : Prop :=
  1 ≤ c.zone ∧ c.zone ≤ 2 ∧ 0 ≤ c.command_code ∧ c.command_code ≤ 255 ∧
    c.data.length ≤ 255

/-- `ArcamResponse` dataclass: all four fields come from wire bytes, hence `ℕ`. -/
structure ArcamResponse where
  zone : ℕ
  command_code : ℕ
  answer_code : ℕ
  data : List ℕ
deriving DecidableEq, Repr

/-- `ArcamResponse.is_success`: `answer_code == ANSWER_OK`. -/
def ArcamResponse.is_success (r : ArcamResponse) : Bool :=
  r.answer_code == ANSWER_OK

/-- `ArcamResponse.error_message`: lookup of `answer_code` in the literal
five-entry dict; `dict.get` returns `None` on a missing key. -/
def ArcamResponse.error_message (r : ArcamResponse) : Option String :=
  if r.answer_code = ANSWER_ZONE_INVALID then some "Invalid zone specified"
  else if r.answer_code = ANSWER_COMMAND_NOT_RECOGNIZED then some "Command not recognized"
  else if r.answer_code = ANSWER_PARAMETER_NOT_RECOGNIZED then some "Parameter not recognized"
  else if r.answer_code = ANSWER_COMMAND_INVALID_AT_THIS_TIME then
    some "Command invalid at this time"
  else if r.answer_code = ANSWER_INVALID_DATA_LENGTH then some "Invalid data length"
  else none

/-! ## Frame codec (`protocol.py`: `ArcamProtocol`) -/

/-- `ArcamProtocol.encode_command`: `bytearray([START, zone, cc, len(data)])`,
then `extend(data)`, then `append(END)`.  For a validated command `zone` and
`command_code` are in 0–255, so the `bytearray` entry is the value itself;
`Int.toNat` is that injection. -/
def ArcamProtocol.encode_command (command : ArcamCommand) : List ℕ :=
  START_BYTE :: command.zone.toNat :: command.command_code.toNat ::
    command.data.length :: (command.data ++ [END_BYTE])

/-- `ArcamProtocol.decode_response`.  The Python function indexes `data[0]`,
`data[-1]`, `data[1..4]` only after the `len(data) < 6` guard has failed, so
the guarded `getD`/`getLastD` reads here return exactly the bytes the source
reads; the guard order is the source's.  The source's local variables
(`zone = data[1]`, ..., `data_length = data[4]`,
`expected_length = 6 + data_length`, and the slice
`data[5:5 + data_length] if data_length > 0 else b""`) are inlined. -/
def ArcamProtocol.decode_response (data : List ℕ) :
    Except String ArcamResponse :=
  if data.length < 6 then .error "Response too short"
  else if data.getD 0 0 ≠ START_BYTE then .error "Invalid start byte"
  else if data.getLastD 0 ≠ END_BYTE then .error "Invalid end byte"
  else if data.length ≠ 6 + data.getD 4 0 then .error "Data length mismatch"
  else
    .ok ⟨data.getD 1 0, data.getD 2 0, data.getD 3 0,
      if 0 < data.getD 4 0 then (data.drop 5).take (data.getD 4 0) else []⟩

/-- `ArcamProtocol.validate_response`: compares the decoded response's
`command_code` byte with the expected command code (a Python int) and returns
the boolean; the mismatch warning is a log line, not control flow. -/
def ArcamProtocol.validate_response (response : ArcamResponse)
    (expected_command : ℤ) : Bool :=
  (response.command_code : ℤ) == expected_command

/-! ## Command catalog (`commands.py`) -/

def POWER : ℤ := 0x00

def SOFTWARE_VERSION : ℤ := 0x04

def RC5_SIMULATE : ℤ := 0x08

def VOLUME : ℤ := 0x0D

def MUTE : ℤ := 0x0E

def SOURCE : ℤ := 0x1D

/-- The `RC5_SOURCES` dict as a lookup function (all 15 literal entries,
source order; keys are distinct so order is immaterial). -/
def RC5_SOURCES (name : String) : Option (ℕ × ℕ) :=
  if name = "CD" then some (0x10, 0x76)
  else if name = "BD" then some (0x10, 0x62)
  else if name = "AV" then some (0x10, 0x5E)
  else if name = "STB" then some (0x10, 0x64)
  else if name = "SAT" then some (0x10, 0x1B)
  else if name = "PVR" then some (0x10, 0x60)
  else if name = "VCR" then some (0x10, 0x63)
  else if name = "AUX" then some (0x10, 0x63)
  else if name = "GAME" then some (0x10, 0x61)
  else if name = "NET" then some (0x10, 0x5C)
  else if name = "FM" then some (0x10, 0x1C)
  else if name = "DAB" then some (0x10, 0x48)
  else if name = "BT" then some (0x10, 0x7A)
  else if name = "USB" then some (0x10, 0x7B)
  else if name = "UHD" then some (0x10, 0x7D)
  else none

/-- `ArcamCommands.power_on`: zone check (`ValueError`), then dataclass
construction (which re-validates via `__post_init__`). -/
def ArcamCommands.power_on (zone : ℤ) : Except String ArcamCommand :=
  if ¬ (1 ≤ zone ∧ zone ≤ 2) then .error "Invalid zone"
  else mkArcamCommand zone POWER [0x01]

/-- Python's `str.upper()` on the ASCII source names: uppercase every
character. -/
def pyUpper (s : String) : String := ⟨s.data.map Char.toUpper⟩

/-- `ArcamCommands.select_source`: zone check, uppercase the name, look it up
in `RC5_SOURCES` (`ValueError` if absent), then construct the RC5-simulation
command with the two code bytes as payload. -/
def ArcamCommands.select_source (source : String) (zone : ℤ) :
    Except String ArcamCommand :=
  if ¬ (1 ≤ zone ∧ zone ≤ 2) then .error "Invalid zone"
  else
    match RC5_SOURCES (pyUpper source) with
    | none => .error "Invalid source"
    | some p => mkArcamCommand zone RC5_SIMULATE [p.1, p.2]

/-- `decode_power_response`: `None` unless exactly one byte, else
`data[0] == 0x01`. -/
def decode_power_response (data : List ℕ) : Option Bool :=
  if data.length ≠ 1 then none
  else some (data.getD 0 0 == 0x01)

/-- `decode_mute_response`: `None` unless exactly one byte, else
`data[0] == 0x01`. -/
def decode_mute_response (data : List ℕ) : Option Bool :=
  if data.length ≠ 1 then none
  else some (data.getD 0 0 == 0x01)

/-- Reshaping an encoded command frame as a response frame: insert a status
byte after the operation-code byte (i.e. at index 3, between the operation
code and the length byte). -/
def insertStatusByte (s : ℕ) (bs : List ℕ) : List ℕ :=
  bs.take 3 ++ s :: bs.drop 3

/-! ## Connection behaviour (`connection.py`), modelled on event traces -/

/-- One iteration's worth of socket input for the broadcast listener:
the `asyncio.wait_for` read times out, hits end-of-stream, or yields the raw
bytes of one frame. -/
inductive ReadEvent where
  | timeout
  | eof
  | frame (bs : List ℕ)
deriving DecidableEq, Repr

/-- `ArcamConnection._broadcast_listener` over a trace of read events,
returning the responses delivered to the callback in order.  The source loop:
`at_eof` breaks; `asyncio.TimeoutError` continues; any other exception —
including `ArcamProtocolError` from `decode_response` — hits the
`except Exception` arm, which `break`s out of the loop. -/
def broadcastListenerRun : List ReadEvent → List ArcamResponse
  | [] => []
  | .eof :: _ => []
  | .timeout :: rest => broadcastListenerRun rest
  | .frame bs :: rest =>
    match ArcamProtocol.decode_response bs with
    | .error _ => []
    | .ok r => r :: broadcastListenerRun rest

/-- `send_command` after the reply bytes have been read: decode (a decode
failure propagates to the caller), run `validate_response` — whose `False`
result only triggers a warning log, recorded here as the `Bool` component —
and return the response regardless. -/
def sendCommandProcess (command : ArcamCommand) (raw : List ℕ) :
    Except String (ArcamResponse × Bool) :=
  match ArcamProtocol.decode_response raw with
  | .error e => .error e
  | .ok r => .ok (r, !(ArcamProtocol.validate_response r command.command_code))

/-- `RECONNECT_DELAY_BASE = 1.0` (an exact float; modelled in `ℚ`). -/
def RECONNECT_DELAY_BASE : ℚ := 1

def MAX_RECONNECT_ATTEMPTS : ℕ := 5

/-- `ArcamConnection._reconnect_with_backoff` over an outcome oracle
(`outcome n` = whether the n-th `connect()` call succeeds).  Result:
the list of delays slept (in order), the final `_reconnect_attempts` counter,
and whether reconnection succeeded.  The loop body increments the counter,
sleeps `RECONNECT_DELAY_BASE * 2 ** (attempts - 1)`, and calls `connect()`;
a successful `connect()` resets the counter to `0` and the loop returns;
`ArcamConnectionError` keeps looping while `attempts < MAX`.  `fuel` is the
number of loop iterations still permitted by the `while` guard, so the
function is called with `fuel = MAX_RECONNECT_ATTEMPTS - attempts`; the
guard is re-checked inside so the two exit paths coincide. -/
def reconnectLoop (outcome : ℕ → Bool) : ℕ → ℕ → List ℚ × ℕ × Bool
  | 0, attempts => ([], attempts, false)
  | fuel + 1, attempts =>
    if attempts < MAX_RECONNECT_ATTEMPTS then
      let delay := RECONNECT_DELAY_BASE * 2 ^ ((attempts + 1) - 1)
      if outcome (attempts + 1) then ([delay], 0, true)
      else
        let r := reconnectLoop outcome fuel (attempts + 1)
        (delay :: r.1, r.2.1, r.2.2)
    else ([], attempts, false)

/-- `_reconnect_with_backoff` as entered from `_handle_connection_lost` after
a fresh connection loss (`_reconnect_attempts = 0`). -/
def reconnectWithBackoff (outcome : ℕ → Bool) : List ℚ × ℕ × Bool :=
  reconnectLoop outcome MAX_RECONNECT_ATTEMPTS 0

/-! ## Theorems -/

/-- C8: encoding the power-on command for zone 1 yields exactly the byte
sequence `[0x21, 0x01, 0x00, 0x01, 0x01, 0x0D]` (START, zone 1, operation
code 0x00, length 1, data byte 0x01, END). -/
theorem power_on_zone1_encoding :
    (ArcamCommands.power_on 1).map ArcamProtocol.encode_command =
      .ok [0x21, 0x01, 0x00, 0x01, 0x01, 0x0D] := rfl

/-- C2 (counterexample): the payload byte `0x02` is nonzero, yet both
`decode_power_response` and `decode_mute_response` decode it as `false`;
the decoders compare `data[0]` with `0x01`, they do not test "nonzero". -/
theorem decode_power_mute_nonzero_cex :
    (2 : ℕ) ≠ 0 ∧ decode_power_response [2] = some false ∧
      decode_mute_response [2] = some false := by decide

/-- C2 (amended): for a 1-byte payload `b`, `decode_power_response` returns
"on" (`some true`) exactly when `b = 0x01`, and `decode_mute_response`
returns "muted" exactly when `b = 0x01`; every payload whose length differs
from 1 decodes to `none` under both. -/
theorem decode_power_mute_spec (b : ℕ) (d : List ℕ) (hd : d.length ≠ 1) :
    (decode_power_response [b] = some true ↔ b = 0x01) ∧
    (decode_mute_response [b] = some true ↔ b = 0x01) ∧
    decode_power_response d = none ∧ decode_mute_response d = none := by
  refine ⟨?_, ?_, ?_, ?_⟩ <;>
    simp [decode_power_response, decode_mute_response, hd]

/-- C2 witness: `decode_power_mute_spec` at `b = 1`, `d = []`. -/
theorem decode_power_mute_spec_witness :
    (decode_power_response [1] = some true ↔ (1 : ℕ) = 0x01) ∧
    (decode_mute_response [1] = some true ↔ (1 : ℕ) = 0x01) ∧
    decode_power_response [] = none ∧ decode_mute_response [] = none :=
  decode_power_mute_spec 1 [] (by decide)

/-- C6: constructing an `ArcamCommand` fails exactly when the zone is outside
{1, 2}, the command code is outside 0–255, or the payload exceeds 255 bytes;
for every in-range input the construction succeeds and stores zone, command
code, and payload exactly as given (no truncation or clamping). -/
theorem mkArcamCommand_validation (zone command_code : ℤ) (data : List ℕ) :
    (raised (mkArcamCommand zone command_code data) = true ↔
      ¬ (1 ≤ zone ∧ zone ≤ 2) ∨ ¬ (0 ≤ command_code ∧ command_code ≤ 255) ∨
        255 < data.length) ∧
    (1 ≤ zone → zone ≤ 2 → 0 ≤ command_code → command_code ≤ 255 →
      data.length ≤ 255 →
      mkArcamCommand zone command_code data = .ok ⟨zone, command_code, data⟩) := by
  unfold mkArcamCommand
  constructor
  · split_ifs <;> simp_all [raised]
  · intro hz1 hz2 hc1 hc2 hdl
    split_ifs <;> simp_all

/-- C6 witness: `mkArcamCommand_validation` at zone 1, code 0x0D, payload
`[0x32]`. -/
theorem mkArcamCommand_validation_witness :
    (raised (mkArcamCommand 1 0x0D [0x32]) = true ↔
      ¬ ((1 : ℤ) ≤ 1 ∧ (1 : ℤ) ≤ 2) ∨ ¬ ((0 : ℤ) ≤ 0x0D ∧ (0x0D : ℤ) ≤ 255) ∨
        255 < [(0x32 : ℕ)].length) ∧
    mkArcamCommand 1 0x0D [0x32] = .ok ⟨1, 0x0D, [0x32]⟩ :=
  ⟨(mkArcamCommand_validation 1 0x0D [0x32]).1,
    (mkArcamCommand_validation 1 0x0D [0x32]).2 (by decide) (by decide)
      (by decide) (by decide) (by decide)⟩

/-- C9: decoding `[0x21, 0x01, 0x00, 0x82, 0x00, 0x0D]` succeeds with
answer code 0x82, `is_success = false`, and the "Invalid zone specified"
message; in general exactly the five enumerated answer codes 0x82–0x86
resolve to a message, and any nonzero answer code has `is_success = false`. -/
theorem decode_answer_code_invalid_zone :
    ArcamProtocol.decode_response [0x21, 0x01, 0x00, 0x82, 0x00, 0x0D] =
      .ok ⟨1, 0, 0x82, []⟩ ∧
    (ArcamResponse.mk 1 0 0x82 []).is_success = false ∧
    (ArcamResponse.mk 1 0 0x82 []).error_message = some "Invalid zone specified" ∧
    ∀ r : ArcamResponse,
      (r.error_message ≠ none ↔
        r.answer_code = 0x82 ∨ r.answer_code = 0x83 ∨ r.answer_code = 0x84 ∨
          r.answer_code = 0x85 ∨ r.answer_code = 0x86) ∧
      (r.answer_code ≠ ANSWER_OK → r.is_success = false) := by
  refine ⟨rfl, rfl, rfl, fun r => ⟨?_, ?_⟩⟩
  · unfold ArcamResponse.error_message
    split_ifs <;>
      simp_all [ANSWER_ZONE_INVALID, ANSWER_COMMAND_NOT_RECOGNIZED,
        ANSWER_PARAMETER_NOT_RECOGNIZED, ANSWER_COMMAND_INVALID_AT_THIS_TIME,
        ANSWER_INVALID_DATA_LENGTH]
  · intro h
    unfold ANSWER_OK at h
    simp [ArcamResponse.is_success, ANSWER_OK, h]

/-- C9 witness: the general part of `decode_answer_code_invalid_zone` at the
response with answer code 0x83. -/
theorem decode_answer_code_invalid_zone_witness :
    (ArcamResponse.mk 1 0 0x83 []).error_message ≠ none ∧
    (ArcamResponse.mk 1 0 0x83 []).is_success = false :=
  ⟨((decode_answer_code_invalid_zone).2.2.2 ⟨1, 0, 0x83, []⟩).1.mpr
      (Or.inr (Or.inl rfl)),
    ((decode_answer_code_invalid_zone).2.2.2 ⟨1, 0, 0x83, []⟩).2 (by decide)⟩

/-- C10: "VCR" and "AUX" resolve to the same RC5 code pair `(0x10, 0x63)`,
so for every zone in {1, 2} the two selections construct identical commands
(same zone, operation code `RC5_SIMULATE`, payload `[0x10, 0x63]`). -/
theorem select_source_vcr_aux_identical (zone : ℤ) (h1 : 1 ≤ zone) (h2 : zone ≤ 2) :
    RC5_SOURCES "VCR" = some (0x10, 0x63) ∧
    RC5_SOURCES "AUX" = some (0x10, 0x63) ∧
    ArcamCommands.select_source "VCR" zone = ArcamCommands.select_source "AUX" zone ∧
    ArcamCommands.select_source "VCR" zone =
      .ok ⟨zone, RC5_SIMULATE, [0x10, 0x63]⟩ := by
  have hv : RC5_SOURCES (pyUpper "VCR") = some (0x10, 0x63) := by decide
  have ha : RC5_SOURCES (pyUpper "AUX") = some (0x10, 0x63) := by decide
  have hmk : mkArcamCommand zone RC5_SIMULATE [0x10, 0x63] =
      .ok ⟨zone, RC5_SIMULATE, [0x10, 0x63]⟩ := by
    unfold mkArcamCommand RC5_SIMULATE
    rw [if_neg (by omega), if_neg (by decide), if_neg (by decide)]
  refine ⟨by decide, by decide, ?_, ?_⟩ <;>
    simp [ArcamCommands.select_source, hv, ha, h1, h2, hmk]

/-- C10 witness: `select_source_vcr_aux_identical` at zone 1. -/
theorem select_source_vcr_aux_identical_witness :
    ArcamCommands.select_source "VCR" 1 = ArcamCommands.select_source "AUX" 1 ∧
    ArcamCommands.select_source "VCR" 1 =
      .ok ⟨1, RC5_SIMULATE, [0x10, 0x63]⟩ :=
  ⟨(select_source_vcr_aux_identical 1 (by decide) (by decide)).2.2.1,
    (select_source_vcr_aux_identical 1 (by decide) (by decide)).2.2.2⟩

/-- Helper: `decode_response` succeeds, extracting the fields raw, whenever
the four framing checks pass. -/
theorem decode_response_success (bs : List ℕ) (h6 : 6 ≤ bs.length)
    (hstart : bs.getD 0 0 = START_BYTE) (hend : bs.getLastD 0 = END_BYTE)
    (hlen : bs.length = 6 + bs.getD 4 0) :
    ArcamProtocol.decode_response bs =
      .ok ⟨bs.getD 1 0, bs.getD 2 0, bs.getD 3 0,
        (bs.drop 5).take (bs.getD 4 0)⟩ := by
  simp only [ArcamProtocol.decode_response]
  rw [if_neg (by omega), if_neg (not_ne_iff.mpr hstart),
    if_neg (not_ne_iff.mpr hend), if_neg (by omega)]
  rcases Nat.eq_zero_or_pos (bs.getD 4 0) with h0 | h0
  · rw [h0]
    simp
  · rw [if_pos h0]

/-- Helper: `decode_response` raises `ArcamProtocolError` whenever any of the
four framing checks fails. -/
theorem decode_response_error_cases (bs : List ℕ)
    (h : bs.length < 6 ∨ bs.getD 0 0 ≠ START_BYTE ∨ bs.getLastD 0 ≠ END_BYTE ∨
      bs.length ≠ 6 + bs.getD 4 0) :
    raised (ArcamProtocol.decode_response bs) = true := by
  simp only [ArcamProtocol.decode_response]
  split_ifs with h1 h2 h3 h4 <;> simp [raised] <;> tauto

/-- Helper: decoding a well-shaped response frame recovers its fields; the
length byte must equal the payload length, everything else is arbitrary. -/
theorem decode_response_frame (z cc s : ℕ) (d : List ℕ) :
    ArcamProtocol.decode_response
        (START_BYTE :: z :: cc :: s :: d.length :: (d ++ [END_BYTE])) =
      .ok ⟨z, cc, s, d⟩ := by
  have hlast : (START_BYTE :: z :: cc :: s :: d.length ::
      (d ++ [END_BYTE])).getLastD 0 = END_BYTE := by
    rw [List.getLastD_cons, List.getLastD_cons, List.getLastD_cons,
      List.getLastD_cons, List.getLastD_cons, List.getLastD_concat]
  have hlen : (START_BYTE :: z :: cc :: s :: d.length ::
      (d ++ [END_BYTE])).length = 6 + d.length := by
    simp
    omega
  have h := decode_response_success
    (START_BYTE :: z :: cc :: s :: d.length :: (d ++ [END_BYTE]))
    (by rw [hlen]; omega) rfl hlast (by rw [hlen]; rfl)
  rw [h]
  show Except.ok (ArcamResponse.mk z cc s ((d ++ [END_BYTE]).take d.length)) = _
  rw [List.take_left]

/-- C3: for every validly constructed command `c`, taking the bytes of
`encode_command c`, inserting a status byte `s` after the operation-code
byte, and decoding the result yields a response whose zone, operation code,
and payload equal those of `c` exactly (and whose answer code is `s`). -/
theorem encode_decode_roundtrip (c : ArcamCommand) (s : ℕ) (hc : c.Valid)
    (hs : s < 256) :
    ∃ r : ArcamResponse,
      ArcamProtocol.decode_response
          (insertStatusByte s (ArcamProtocol.encode_command c)) = .ok r ∧
      (r.zone : ℤ) = c.zone ∧ (r.command_code : ℤ) = c.command_code ∧
      r.answer_code = s ∧ r.data = c.data := by
  obtain ⟨h1, h2, h3, h4, h5⟩ := hc
  refine ⟨⟨c.zone.toNat, c.command_code.toNat, s, c.data⟩, ?_, ?_, ?_, rfl, rfl⟩
  · have hins : insertStatusByte s (ArcamProtocol.encode_command c) =
        START_BYTE :: c.zone.toNat :: c.command_code.toNat :: s ::
          c.data.length :: (c.data ++ [END_BYTE]) := by
      simp [insertStatusByte, ArcamProtocol.encode_command]
    rw [hins]
    exact decode_response_frame _ _ _ _
  · exact Int.toNat_of_nonneg (by omega)
  · exact Int.toNat_of_nonneg h3

/-- C3 witness: the round trip at the zone-1 power-on command with status
byte 0. -/
theorem encode_decode_roundtrip_witness :
    ∃ r : ArcamResponse,
      ArcamProtocol.decode_response
          (insertStatusByte 0 (ArcamProtocol.encode_command ⟨1, 0, [0x01]⟩)) =
        .ok r ∧
      (r.zone : ℤ) = (1 : ℤ) ∧ (r.command_code : ℤ) = (0 : ℤ) ∧
      r.answer_code = 0 ∧ r.data = [0x01] :=
  encode_decode_roundtrip ⟨1, 0, [0x01]⟩ 0
    ⟨by decide, by decide, by decide, by decide, by decide⟩ (by decide)

/-- C4: `decode_response` fails — with the modelled `ArcamProtocolError`, the
embedding being a total function so no index fault is possible — exactly when
the input is shorter than 6 bytes, or its first byte is not START, or its
last byte is not END, or its declared length byte `bs[4]` differs from
`len(bs) - 6`; when none of these hold it succeeds, taking zone, operation
code, answer code, and payload raw with no further validity checks. -/
theorem decode_response_validity (bs : List ℕ) :
    (raised (ArcamProtocol.decode_response bs) = true ↔
      bs.length < 6 ∨ bs.getD 0 0 ≠ START_BYTE ∨ bs.getLastD 0 ≠ END_BYTE ∨
        bs.getD 4 0 ≠ bs.length - 6) ∧
    (¬ (bs.length < 6 ∨ bs.getD 0 0 ≠ START_BYTE ∨ bs.getLastD 0 ≠ END_BYTE ∨
        bs.getD 4 0 ≠ bs.length - 6) →
      ArcamProtocol.decode_response bs =
        .ok ⟨bs.getD 1 0, bs.getD 2 0, bs.getD 3 0,
          (bs.drop 5).take (bs.getD 4 0)⟩) := by
  constructor
  · constructor
    · intro hr
      by_contra hno
      push_neg at hno
      obtain ⟨hn1, hn2, hn3, hn4⟩ := hno
      rw [decode_response_success bs (by omega) hn2 hn3 (by omega)] at hr
      simp [raised] at hr
    · intro h
      apply decode_response_error_cases
      rcases h with h | h | h | h
      · exact Or.inl h
      · exact Or.inr (Or.inl h)
      · exact Or.inr (Or.inr (Or.inl h))
      · by_cases h6 : bs.length < 6
        · exact Or.inl h6
        · exact Or.inr (Or.inr (Or.inr (by omega)))
  · intro h
    push_neg at h
    obtain ⟨hn1, hn2, hn3, hn4⟩ := h
    exact decode_response_success bs (by omega) hn2 hn3 (by omega)

/-- C4 witness: `decode_response_validity` at the minimal valid frame and at
a short input. -/
theorem decode_response_validity_witness :
    ArcamProtocol.decode_response [0x21, 1, 0, 0, 0, 0x0D] = .ok ⟨1, 0, 0, []⟩ ∧
    raised (ArcamProtocol.decode_response [0x00]) = true := by
  constructor
  · exact (decode_response_validity [0x21, 1, 0, 0, 0, 0x0D]).2 (by decide)
  · exact (decode_response_validity [0x00]).1.mpr (Or.inl (by decide))

/-- C1 (counterexample): a malformed frame followed by a well-formed frame.
The source's `_broadcast_listener` catches the decode failure in its
`except Exception` arm and `break`s, so the well-formed frame that follows is
never delivered — the claim that the frame is dropped and the loop continues
would require the second run below to equal the third. -/
theorem broadcast_listener_drop_cex :
    raised (ArcamProtocol.decode_response [0x00]) = true ∧
    broadcastListenerRun [.frame [0x00], .frame [0x21, 1, 0, 0, 0, 0x0D]] = [] ∧
    broadcastListenerRun [.frame [0x21, 1, 0, 0, 0, 0x0D]] = [⟨1, 0, 0, []⟩] := by
  refine ⟨by decide, by decide, by decide⟩

/-- C1 (amended): a per-frame decode failure terminates the listener loop
(the `except Exception` arm logs and `break`s); only read timeouts are
tolerated as "keep listening". -/
theorem broadcast_listener_decode_failure_breaks (bs : List ℕ) (e : String)
    (hd : ArcamProtocol.decode_response bs = .error e)
    (rest rest2 : List ReadEvent) :
    broadcastListenerRun (.frame bs :: rest) = [] ∧
    broadcastListenerRun (.timeout :: rest2) = broadcastListenerRun rest2 := by
  constructor
  · simp [broadcastListenerRun, hd]
  · rfl

/-- C1 witness: `broadcast_listener_decode_failure_breaks` at the short frame
`[0x00]`. -/
theorem broadcast_listener_decode_failure_breaks_witness :
    broadcastListenerRun [.frame [0x00], .timeout] = [] ∧
    broadcastListenerRun [.timeout] = broadcastListenerRun [] :=
  broadcast_listener_decode_failure_breaks [0x00] "Response too short" rfl
    [.timeout] []

/-- C7: when the reply bytes decode successfully into a response whose
operation code differs from the sent command's, `send_command` still returns
that response — the mismatch only sets the warning flag, it never raises —
and `validate_response r expected` is `true` exactly when
`r.command_code = expected`. -/
theorem send_command_mismatch_returned (command : ArcamCommand)
    (raw : List ℕ) (r : ArcamResponse)
    (hd : ArcamProtocol.decode_response raw = .ok r) :
    sendCommandProcess command raw =
      .ok (r, !(ArcamProtocol.validate_response r command.command_code)) ∧
    ∀ expected : ℤ,
      (ArcamProtocol.validate_response r expected = true ↔
        (r.command_code : ℤ) = expected) := by
  constructor
  · simp [sendCommandProcess, hd]
  · intro expected
    simp [ArcamProtocol.validate_response]

/-- C7 witness: a VOLUME command answered by a POWER-coded frame — the
mismatched response is still returned, with the warning flag set. -/
theorem send_command_mismatch_returned_witness :
    sendCommandProcess ⟨1, 0x0D, []⟩ [0x21, 1, 0, 0, 0, 0x0D] =
      .ok (⟨1, 0, 0, []⟩,
        !(ArcamProtocol.validate_response ⟨1, 0, 0, []⟩ 0x0D)) ∧
    ∀ expected : ℤ,
      (ArcamProtocol.validate_response ⟨1, 0, 0, []⟩ expected = true ↔
        ((ArcamResponse.mk 1 0 0 []).command_code : ℤ) = expected) :=
  send_command_mismatch_returned ⟨1, 0x0D, []⟩ [0x21, 1, 0, 0, 0, 0x0D]
    ⟨1, 0, 0, []⟩ rfl

/-- Helper: closed form of the reconnection loop over the first five connect
outcomes. -/
theorem reconnectWithBackoff_closed (outcome : ℕ → Bool) :
    reconnectWithBackoff outcome =
      if outcome 1 then ([1], 0, true)
      else if outcome 2 then ([1, 2], 0, true)
      else if outcome 3 then ([1, 2, 4], 0, true)
      else if outcome 4 then ([1, 2, 4, 8], 0, true)
      else if outcome 5 then ([1, 2, 4, 8, 16], 0, true)
      else ([1, 2, 4, 8, 16], 5, false) := by
  cases h1 : outcome 1 <;> cases h2 : outcome 2 <;> cases h3 : outcome 3 <;>
    cases h4 : outcome 4 <;> cases h5 : outcome 5 <;>
      norm_num [reconnectWithBackoff, reconnectLoop, MAX_RECONNECT_ATTEMPTS,
        RECONNECT_DELAY_BASE, h1, h2, h3, h4, h5]

/-- C5: over every outcome oracle, the reconnection loop entered with the
attempt counter at 0 sleeps `RECONNECT_DELAY_BASE * 2 ^ (N - 1)` before
attempt `N` (so the delays are `base, 2*base, 4*base, ...`, strictly
increasing), makes at most `MAX_RECONNECT_ATTEMPTS` attempts, leaves the
counter at 0 after a successful reconnection, and when it does not succeed it
has made exactly `MAX_RECONNECT_ATTEMPTS` attempts and stops (gives up,
never retrying indefinitely). -/
theorem reconnect_backoff_spec (outcome : ℕ → Bool) :
    ((reconnectWithBackoff outcome).1 =
      (List.range (reconnectWithBackoff outcome).1.length).map
        (fun i => RECONNECT_DELAY_BASE * 2 ^ i)) ∧
    (reconnectWithBackoff outcome).1.Chain' (· < ·) ∧
    (reconnectWithBackoff outcome).1.length ≤ MAX_RECONNECT_ATTEMPTS ∧
    ((reconnectWithBackoff outcome).2.2 = true →
      (reconnectWithBackoff outcome).2.1 = 0) ∧
    ((reconnectWithBackoff outcome).2.2 = false →
      (reconnectWithBackoff outcome).2.1 = MAX_RECONNECT_ATTEMPTS ∧
      (reconnectWithBackoff outcome).1.length = MAX_RECONNECT_ATTEMPTS) := by
  rw [reconnectWithBackoff_closed]
  split_ifs <;>
    norm_num [RECONNECT_DELAY_BASE, MAX_RECONNECT_ATTEMPTS,
      List.chain'_cons, List.chain'_singleton,
      show List.range 1 = [0] from rfl, show List.range 2 = [0, 1] from rfl,
      show List.range 3 = [0, 1, 2] from rfl,
      show List.range 4 = [0, 1, 2, 3] from rfl,
      show List.range 5 = [0, 1, 2, 3, 4] from rfl]

/-- C5 witness: `reconnect_backoff_spec` at an oracle whose third attempt
succeeds (counter reset to 0) and at the all-failures oracle (exactly five
attempts, then give up). -/
theorem reconnect_backoff_spec_witness :
    (reconnectWithBackoff (fun n => n == 3)).2.1 = 0 ∧
    (reconnectWithBackoff (fun _ => false)).2.1 = MAX_RECONNECT_ATTEMPTS ∧
    (reconnectWithBackoff (fun _ => false)).1.length = MAX_RECONNECT_ATTEMPTS := by
  have h3 : (reconnectWithBackoff (fun n => n == 3)).2.2 = true := by
    rw [reconnectWithBackoff_closed]
    norm_num
  have hf : (reconnectWithBackoff (fun _ : ℕ => false)).2.2 = false := by
    rw [reconnectWithBackoff_closed]
    norm_num
  exact ⟨(reconnect_backoff_spec (fun n => n == 3)).2.2.2.1 h3,
    ((reconnect_backoff_spec (fun _ => false)).2.2.2.2 hf).1,
    ((reconnect_backoff_spec (fun _ => false)).2.2.2.2 hf).2⟩
